import Mathlib

/-!
Verification of the chat-bot event-orchestration core
(`src/main.rs`, `src/twitch.rs`, `src/ws.rs`, `src/ai.rs`) against its
natural-language specification.

The Rust code is shallowly embedded: strings are Lean `String`s, wall-clock
instants are naturals counted in milliseconds, fallible operations return
`Except`/`Option`, network and file effects are threaded explicitly, and the
results of external collaborators (HTTP responses, WebSocket frames, the AI
responder) are inputs to the embedded functions.
-/

/-! ## Models of the Rust string primitives used by the code -/

/-- Model of Rust `str::contains` on character lists: `pat` occurs as a
contiguous sublist. -/
def containsSub (pat : List Char) : List Char → Bool
  | [] => pat.isEmpty
  | c :: t => pat.isPrefixOf (c :: t) || containsSub pat t

/-- Model of Rust `haystack.contains(pat)`. -/
def strContains (haystack pat : String) : Bool :=
  containsSub pat.toList haystack.toList

/-- Model of Rust `s.starts_with(p)`. -/
def rustStartsWith (s p : String) : Bool :=
  p.toList.isPrefixOf s.toList

/-- Model of Rust `s.ends_with(p)`. -/
def rustEndsWith (s p : String) : Bool :=
  p.toList.isSuffixOf s.toList

/-- Model of Rust `str::to_lowercase`. The Rust function lowercases per the
full Unicode tables; every string this program matches against is ASCII, where
character-wise `Char.toLower` agrees with it. -/
def rustToLowercase (s : String) : String :=
  String.mk (s.toList.map Char.toLower)

/-- Model of Rust `a.eq_ignore_ascii_case(b)`: equality after ASCII-only
lowercasing (`Char.toLower` lowercases exactly the ASCII range). -/
def eqIgnoreAsciiCase (a b : String) : Bool :=
  a.toList.map Char.toLower == b.toList.map Char.toLower

/-- Drop leading whitespace characters. -/
def dropLeadingWs : List Char → List Char
  | [] => []
  | c :: t => if c.isWhitespace then dropLeadingWs t else c :: t

/-- Model of Rust `str::trim`: remove leading and trailing whitespace. -/
def rustTrim (s : String) : String :=
  String.mk ((dropLeadingWs ((dropLeadingWs s.toList).reverse)).reverse)

/-- Model of Rust `s.trim_start_matches(pat)` for a non-empty pattern:
repeatedly strip `pat` from the front while it matches. -/
def trimStartMatchesL (pat : List Char) (l : List Char) : List Char :=
  if h : pat ≠ [] ∧ pat.isPrefixOf l then
    trimStartMatchesL pat (l.drop pat.length)
  else l
  termination_by l.length
  decreasing_by
    have hp := (List.isPrefixOf_iff_prefix).mp h.2
    have hlen : pat.length ≤ l.length := hp.length_le
    have hpos : 0 < pat.length := List.length_pos.mpr h.1
    simp only [List.length_drop]
    omega

/-- Model of Rust `s.trim_start_matches(pat)`. -/
def rustTrimStartMatches (s pat : String) : String :=
  String.mk (trimStartMatchesL pat.toList s.toList)

/-- Replacement scan with explicit fuel, structurally recursive so that it
evaluates inside the kernel; every step consumes at least one character of
the scanned list, so fuel equal to the list length always suffices. -/
def replaceFuel (pat rep : List Char) : Nat → List Char → List Char
  | 0, l => l
  | _ + 1, [] => []
  | fuel + 1, c :: t =>
    if pat ≠ [] ∧ pat.isPrefixOf (c :: t) then
      rep ++ replaceFuel pat rep fuel ((c :: t).drop pat.length)
    else
      c :: replaceFuel pat rep fuel t

/-- Model of Rust `str::replace` for a non-empty pattern: replace all
non-overlapping occurrences, scanning left to right. -/
def replaceL (pat rep l : List Char) : List Char :=
  replaceFuel pat rep l.length l

/-- Model of Rust `s.replace(pat, rep)`. -/
def rustReplace (s pat rep : String) : String :=
  String.mk (replaceL pat.toList rep.toList s.toList)

/-! ## The trigger predicate (Reaction Engine, `src/main.rs` lines 366-372) -/

/-- Embedding of the `is_trigger` computation of `run_bot`:
`text_lower.contains("hey") || text_lower.contains("hello") ||
 text_lower.contains("hi ") || text_lower.contains("intro") ||
 text.ends_with("?") || text_lower.starts_with("!bot")`. -/
def is_trigger (text : String) : Bool :=
  let text_lower := rustToLowercase text
  strContains text_lower "hey" ||
  strContains text_lower "hello" ||
  strContains text_lower "hi " ||
  strContains text_lower "intro" ||
  rustEndsWith text "?" ||
  rustStartsWith text_lower "!bot"

/-- The fixed greeting vocabulary hard-coded in `run_bot`. -/
def greetingVocabulary : List String := ["hey", "hello", "hi ", "intro"]

/-- The trigger predicate exactly as the claim words it: the lower-cased text
contains a vocabulary word, or the text ends with `?`, or the (original) text
begins with the command token `!bot`. -/
def triggerClaimed (text : String) : Bool :=
  greetingVocabulary.any (fun w => strContains (rustToLowercase text) w) ||
  rustEndsWith text "?" ||
  rustStartsWith text "!bot"

/-- The trigger predicate with the prefix clause read on the lower-cased text,
matching the code. -/
def triggerAmended (text : String) : Bool :=
  greetingVocabulary.any (fun w => strContains (rustToLowercase text) w) ||
  rustEndsWith text "?" ||
  rustStartsWith (rustToLowercase text) "!bot"

/-! ## The normalized event type

`AppEvent` lives in `src/state.rs`, which is not among the provided sources.
Modelled from the spec: the spec's `NormalizedEvent`
(`ChatMessage{user, text}`, `UserJoined{user}`, `UserLeft{user}`,
`AssetReady{key, payload}`, `Info{text}`, `Error{text}`) together with the
constructor shapes used by `src/main.rs` and `src/ws.rs`
(`AppEvent::ChatMessage { user, text }`, `AppEvent::UserJoined(u)`,
`AppEvent::UserLeft(u)`, `AppEvent::EmoteImage(name, img)`,
`AppEvent::Info(s)`, `AppEvent::Error(s)`); the decoded image payload of
`EmoteImage` is irrelevant to every claim and is dropped. -/
inductive AppEvent where
  | ChatMessage (user text : String)
  | UserJoined (user : String)
  | UserLeft (user : String)
  | EmoteImage (name : String)
  | Info (msg : String)
  | Error (msg : String)
  deriving DecidableEq, Repr

/-! ## A JSON value model for the serde payloads -/

/-- JSON values as handled by `serde_json::Value`; numbers are irrelevant to
the claims and carried as integers. -/
inductive Json where
  | str (s : String)
  | num (n : Int)
  | bool (b : Bool)
  | null
  | arr (xs : List Json)
  | obj (fields : List (String × Json))

/-- Model of `serde_json::Value::get(key)`: field lookup on an object, `none`
on everything else. -/
def Json.get? : Json → String → Option Json
  | .obj fields, key => (fields.find? (fun f => f.1 == key)).map (fun f => f.2)
  | _, _ => none

/-- Model of `serde_json::Value::as_str`. -/
def Json.asStr? : Json → Option String
  | .str s => some s
  | _ => none

/-! ## EventSub WebSocket client (`src/ws.rs`, `connect_eventsub_ws`) -/

/-- Model of `serde_json::from_value::<SessionWelcomePayload>` on the
envelope payload: requires an object field `session` holding an object whose
`id` field is a string. -/
def parseWelcome (payload : Json) : Option String :=
  (payload.get? "session").bind (fun s => (s.get? "id").bind Json.asStr?)

/-- Model of `serde_json::from_value::<ChatMessageEvent>` on the `event`
field of a notification payload: requires a string `chatter_user_login` and a
`message` object with a string `text`. -/
def parseChatEvent (eventJson : Json) : Option (String × String) :=
  match (eventJson.get? "chatter_user_login").bind Json.asStr?,
        (eventJson.get? "message").bind (fun m => (m.get? "text").bind Json.asStr?) with
  | some user, some text => some (user, text)
  | _, _ => none

/-- One inbound WebSocket message of the EventSub connection.  A `text` frame
carries the result of the `serde_json::from_str::<Envelope>` parse: `none`
when the envelope is malformed, otherwise the `metadata.message_type` tag and
the raw `payload` value.  `other` stands for the remaining tungstenite frame
kinds (`Binary`, `Pong`, `Frame`). -/
inductive EsMsg where
  | text (envelope : Option (String × Json))
  | ping
  | close
  | other

/-- One item yielded by the EventSub read stream: a message, or a read error
(`Err(_)` from the underlying stream). -/
inductive EsItem where
  | ok (msg : EsMsg)
  | err

/-- One step of the EventSub read loop (`src/ws.rs` lines 55-130).  State is
the stored session id and the events sent so far; the returned `Bool` is true
when the loop `break`s. -/
def esStep (sess : String) (events : List AppEvent) : EsItem → String × List AppEvent × Bool
  | .ok (.text none) =>
      (sess, events ++ [.Error "Parse error"], false)
  | .ok (.text (some (messageType, payload))) =>
      if messageType = "session_welcome" then
        match parseWelcome payload with
        | some id => (id, events, false)
        | none => (sess, events ++ [.Error "Failed to parse welcome"], false)
      else if messageType = "notification" then
        match payload.get? "event" with
        | some ev =>
            match parseChatEvent ev with
            | some (user, text) => (sess, events ++ [.ChatMessage user text], false)
            | none => (sess, events, false)
        | none => (sess, events, false)
      else
        (sess, events, false)
  | .ok .ping => (sess, events, false)
  | .ok .close => (sess, events ++ [.Error "WebSocket closed"], true)
  | .ok .other => (sess, events, false)
  | .err => (sess, events, false)

/-- The EventSub read loop over a finite stream of inbound items; stops early
exactly when a step `break`s.  Returns the final session id, the events
emitted, and whether the loop terminated by `break`. -/
def esLoop (sess : String) (events : List AppEvent) : List EsItem → String × List AppEvent × Bool
  | [] => (sess, events, false)
  | item :: rest =>
      let (s2, e2, brk) := esStep sess events item
      if brk then (s2, e2, true) else esLoop s2 e2 rest

/-- Model of the tail of `connect_eventsub_ws` (`src/ws.rs` lines 134-142):
after the startup window the stored session id is read; an empty id aborts
startup with an error, otherwise the id is returned to the caller. -/
def connectResult (items : List EsItem) : Except String String :=
  let r := esLoop "" [] items
  if r.1 = "" then .error "Did not receive session_welcome message" else .ok r.1

/-- The network request issued by `subscribe_to_chat_messages`
(`src/twitch.rs` lines 194-234): a POST to the subscriptions endpoint whose
transport carries the session id. -/
structure SubscribeRequest where
  sessionId : String
  deriving DecidableEq, Repr

/-- Model of the startup pipeline of `run_bot` (`src/main.rs` lines 308-315):
`connect_eventsub_ws` is awaited with `?`, so its error propagates and
`subscribe_to_chat_messages` — the only place the subscription network call
is made — runs only with the session id it returned. -/
def startupSubscribe (items : List EsItem) : Except String String × List SubscribeRequest :=
  match connectResult items with
  | .error e => (.error e, [])
  | .ok sid => (.ok sid, [⟨sid⟩])

/-! ## Reaction Engine (`src/main.rs` lines 345-404) -/

/-- One inbound `ChatMessage` event together with the wall-clock instant (in
milliseconds) at which the main loop handles it. -/
structure ChatEv where
  user : String
  text : String
  time : Nat
  deriving DecidableEq, Repr

/-- Outcome of handling one `ChatMessage` event: the prompt handed to the
spawned AI task (if any) and the new value of `last_ai_reply`. -/
structure ReactOut where
  dispatch : Option String
  newLast : Nat
  deriving DecidableEq, Repr

/-- Embedding of the `ChatMessage` arm of the main loop (`src/main.rs` lines
345-404): ignore the bot's own messages (`eq_ignore_ascii_case`), compute the
trigger predicate, enforce the 1-second rate limit against `last_ai_reply`
(milliseconds; `Duration::from_secs(1)` = 1000), update the timestamp on
acceptance, strip the command token, and dispatch the prompt when non-empty. -/
def reactionStep (botLogin user text : String) (lastReply now : Nat) : ReactOut :=
  if eqIgnoreAsciiCase user botLogin then
    ⟨none, lastReply⟩
  else
    if is_trigger text then
      if 1000 ≤ now - lastReply then
        let prompt :=
          if rustStartsWith (rustToLowercase text) "!bot" then
            rustTrim (rustTrimStartMatches text "!bot ")
          else
            rustTrim text
        if prompt = "" then
          ⟨none, now⟩
        else
          ⟨some ("User " ++ user ++ ": " ++ prompt), now⟩
      else
        ⟨none, lastReply⟩
    else
      ⟨none, lastReply⟩

/-- The main loop's handling of a finite trace of `ChatMessage` events,
threading `last_ai_reply` through `reactionStep`; each event is paired with
the prompt dispatched for it (or `none`). -/
def runReaction (botLogin : String) (lastReply : Nat) : List ChatEv → List (ChatEv × Option String)
  | [] => []
  | e :: rest =>
      let r := reactionStep botLogin e.user e.text lastReply e.time
      (e, r.dispatch) :: runReaction botLogin r.newLast rest

/-! ## AI responder (`src/ai.rs`, `ask_gemini`) and the spawned reply task -/

/-- Embedding of `ask_gemini` (`src/ai.rs` lines 118-179) as a function of
the external HTTP exchange: the configured API key, the response status, the
error body text, and the text extracted from
`candidates[0].content.parts[0].text` when the success body parses (`none`
when any layer of that chain is absent).  `reqwest::StatusCode::is_success`
is the range 200-299. -/
def ask_gemini (apiKey : Option String) (status : Nat) (body : String)
    (candidateText : Option String) : Except String String :=
  match apiKey with
  | none => .error "GEMINI_API_KEY not set"
  | some _ =>
    if 200 ≤ status ∧ status ≤ 299 then
      match candidateText with
      | some t => .ok (rustTrim t)
      | none => .ok "*Squeak?* (I have no words!)"
    else if status = 429 then
      .ok "*Squeak!* My brain is tired (Quota Exceeded)! Please wait a moment... *hides*"
    else
      .error ("Gemini API error (" ++ toString status ++ "): " ++ body)

/-- Embedding of the spawned reply task body (`src/main.rs` lines 391-401):
on `Ok(reply)` the chat message `@<user> <reply>` is sent; on `Err(_)`
nothing is sent.  The returned value is the chat message handed to
`send_chat_message`, if any. -/
def replyTask (user : String) (aiResult : Except String String) : Option String :=
  match aiResult with
  | .ok reply => some ("@" ++ user ++ " " ++ reply)
  | .error _ => none

/-- The main loop together with its spawned reply tasks: the loop's own trace
(`runReaction`) and, separately, the chat message each spawned task sends,
computed from an oracle giving the AI responder's result for the i-th event.
The spawned tasks are fire-and-forget (`tokio::spawn`), so their outcomes
never feed back into the loop state. -/
def systemRun (botLogin : String) (lastReply : Nat) (aiOracle : Nat → Except String String)
    (evs : List ChatEv) : List (ChatEv × Option String) × List (Option String) :=
  let tr := runReaction botLogin lastReply evs
  (tr,
   (List.range tr.length).map (fun i =>
     match tr[i]? with
     | some (e, some _) => replyTask e.user (aiOracle i)
     | _ => none))

/-! ## Startup authentication (`src/main.rs` lines 127-153) -/

/-- The spec's `Credential` record, as the `'auth` block of `run_bot`
consumes it (`cached.access_token`, `cached.refresh_token`). -/
structure Credential where
  access_token : String
  refresh_token : Option String
  deriving DecidableEq, Repr

/-- The externally observable operations of the startup authentication
sequence, in the order the `'auth` block performs them. -/
inductive AuthOp where
  | loadCache
  | validate
  | refresh
  | deviceFlow
  deriving DecidableEq, Repr

/-- Embedding of the `'auth` block of `run_bot` (`src/main.rs` lines
127-153), parameterised by the outcomes of its collaborators:
`cacheLoad` is the result of `load_token_cache()` (`none` = `Err`),
`validateRes` the result of `validate_token` before the `.unwrap_or(false)`
(`none` = network failure, treated as invalid), `refreshRes` the result of
`refresh_token` (`none` = `Err`), and `deviceRes` the result of
`authenticate_via_device_flow`.  The bodies of `validate_token` and
`refresh_token` are not among the provided sources; their results are inputs
here, which is all the control flow depends on.  Returns the obtained access
token (or the propagated device-flow error) and the trace of operations
attempted. -/
def authStartup (cacheLoad : Option Credential) (validateRes : Option Bool)
    (refreshRes : Option Credential) (deviceRes : Except String String) :
    Except String String × List AuthOp :=
  match cacheLoad with
  | some cached =>
    if validateRes.getD false then
      (.ok cached.access_token, [.loadCache, .validate])
    else
      match cached.refresh_token with
      | some _ =>
        match refreshRes with
        | some newCred =>
            (.ok newCred.access_token, [.loadCache, .validate, .refresh])
        | none =>
            (deviceRes, [.loadCache, .validate, .refresh, .deviceFlow])
      | none => (deviceRes, [.loadCache, .validate, .deviceFlow])
  | none => (deviceRes, [.deviceFlow])

/-! ## Token cache (`src/twitch.rs`, `save_token_cache` / `load_token_cache`) -/

/-- Embedding of `save_token_cache` (`src/twitch.rs` lines 175-180): the
whole cache file is replaced with the JSON record
`json!({ "access_token": token })`. -/
def save_token_cache (token : String) : Json :=
  Json.obj [("access_token", Json.str token)]

/-- Embedding of `load_token_cache` (`src/twitch.rs` lines 182-192): the
cache file is `none` when absent; otherwise its JSON value is read and the
string field `access_token` is extracted, each failure with its distinct
error. -/
def load_token_cache (file : Option Json) : Except String String :=
  match file with
  | none => .error "Cache file not found"
  | some j =>
    match (j.get? "access_token").bind Json.asStr? with
    | some token => .ok token
    | none => .error "No access_token in cache"

/-- The field names of a persisted JSON record. -/
def Json.objKeys : Json → List String
  | .obj fields => fields.map (fun f => f.1)
  | _ => []

/-! ## Device-flow polling (`src/twitch.rs`, `authenticate_via_device_flow`) -/

/-- The per-iteration sleep of the polling loop in seconds
(`src/twitch.rs` line 138: `Duration::from_secs(auth_req.interval + 1)`),
as a function of the server-specified `interval`. -/
def pollPeriod (interval : Nat) : Nat := interval + 1

/-- One response of the token endpoint to a poll: a success body carrying the
token, or an error body text. -/
inductive PollResp where
  | success (token : String)
  | errBody (body : String)

/-- Embedding of the polling loop (`src/twitch.rs` lines 148-172) over a
finite list of successive responses: a success returns the token; an error
body containing `authorization_pending` or `slow_down` continues with the
next response; any other error body aborts.  `none` means every supplied
response was consumed and the loop is still polling. -/
def pollLoop : List PollResp → Option (Except String String)
  | [] => none
  | .success token :: _ => some (.ok token)
  | .errBody body :: rest =>
    if strContains body "authorization_pending" then pollLoop rest
    else if strContains body "slow_down" then pollLoop rest
    else some (.error ("Token polling failed: " ++ body))

/-- `authenticate_via_device_flow` together with its token-cache write: on a
successful poll, `save_token_cache` replaces the cache file before the
function returns; otherwise the cache file is untouched. -/
def deviceFlowRun (responses : List PollResp) (cache : Option Json) :
    Option (Except String String) × Option Json :=
  match pollLoop responses with
  | some (.ok token) => (some (.ok token), some (save_token_cache token))
  | r => (r, cache)

/-! ## IRC presence client (`src/ws.rs`, `connect_irc_ws`) -/

/-- Embedding of `parse_irc_user` (`src/ws.rs` lines 219-230): the sender is
the text between the leading `:` and the first `!`, required to be non-empty
(`end > 1`); index arithmetic is per character, which agrees with the byte
indices of `find` on these ASCII protocol lines. -/
def parse_irc_user (line : String) : Option String :=
  let cs := line.toList
  if cs.head? = some ':' then
    match cs.findIdx? (fun c => c = '!') with
    | some endIdx =>
        if 1 < endIdx then some (String.mk ((cs.drop 1).take (endIdx - 1))) else none
    | none => none
  else none

/-- Strip one trailing carriage return, as Rust `str::lines` does per line. -/
def stripCarriageReturn (s : String) : String :=
  if rustEndsWith s "\r" then String.mk s.toList.dropLast else s

/-- Split a character list at every newline character. -/
def splitNl : List Char → List (List Char)
  | [] => [[]]
  | c :: t =>
    match splitNl t with
    | [] => [[c]]
    | seg :: rest => if c = '\n' then [] :: seg :: rest else (c :: seg) :: rest

/-- Model of Rust `str::lines`: split on newline, strip one trailing `\r`
per line, and drop the final empty segment produced by a terminal newline. -/
def rustLines (s : String) : List String :=
  let parts := (splitNl s.toList).map (fun l => stripCarriageReturn (String.mk l))
  if parts.getLast? = some "" then parts.dropLast else parts

/-- State of the IRC read loop: how many `PONG` sends were attempted, the
reply lines actually sent, and the events emitted. -/
structure IrcState where
  sendCount : Nat
  sent : List String
  events : List AppEvent
  deriving DecidableEq, Repr

/-- One line of the per-frame loop (`src/ws.rs` lines 182-207).  `sendOk n`
is whether the n-th `write.send` succeeds.  The returned `Bool` is false when
the line loop `break`s (a failed `PONG` send). -/
def ircProcessLine (sendOk : Nat → Bool) (st : IrcState) (rawLine : String) :
    IrcState × Bool :=
  let line := rustTrim rawLine
  if line = "" then (st, true)
  else if rustStartsWith line "PING" then
    let pong := rustReplace line "PING" "PONG"
    if sendOk st.sendCount then
      ({ st with sendCount := st.sendCount + 1, sent := st.sent ++ [pong] }, true)
    else
      ({ st with sendCount := st.sendCount + 1 }, false)
  else if strContains line " JOIN #" then
    match parse_irc_user line with
    | some user => ({ st with events := st.events ++ [.UserJoined user] }, true)
    | none => (st, true)
  else if strContains line " PART #" then
    match parse_irc_user line with
    | some user => ({ st with events := st.events ++ [.UserLeft user] }, true)
    | none => (st, true)
  else (st, true)

/-- The `for line in text.lines()` loop over one frame; a `break` abandons
only the remaining lines of this frame. -/
def ircProcessFrame (sendOk : Nat → Bool) (st : IrcState) : List String → IrcState
  | [] => st
  | l :: ls =>
      let r := ircProcessLine sendOk st l
      if r.2 then ircProcessFrame sendOk r.1 ls else r.1

/-- One item yielded by the IRC read stream. -/
inductive IrcItem where
  | text (frame : String)
  | close
  | err
  | other

/-- The outer IRC read loop (`src/ws.rs` lines 179-213): text frames are
split into lines and processed; a close frame or a read error `break`s the
read loop; other frames are ignored. -/
def ircLoop (sendOk : Nat → Bool) (st : IrcState) : List IrcItem → IrcState
  | [] => st
  | .text frame :: rest => ircLoop sendOk (ircProcessFrame sendOk st (rustLines frame)) rest
  | .close :: _ => st
  | .err :: _ => st
  | .other :: rest => ircLoop sendOk st rest

/-! ## Claims -/

/-- C10: for every token string `t`, `save_token_cache t` followed by
`load_token_cache` returns exactly `t`; the persisted record has
`access_token` as its only field, so no refresh token is written to or
readable from the on-disk credential cache. -/
theorem token_cache_roundtrip_only_access_token :
    ∀ t : String,
      load_token_cache (some (save_token_cache t)) = .ok t ∧
      (save_token_cache t).objKeys = ["access_token"] ∧
      (save_token_cache t).get? "refresh_token" = none := by
  intro t
  exact ⟨rfl, rfl, rfl⟩

/-- C4 counterexample: the claim reads the command-token check on the
original text, but the code checks it on the lower-cased text
(`text_lower.starts_with("!bot")`, `src/main.rs` line 372).  On `"!BOT x"`
the code triggers while the claimed predicate does not. -/
theorem trigger_prefix_case_counterexample :
    is_trigger "!BOT x" = true ∧ triggerClaimed "!BOT x" = false := by
  decide

/-- C4 (amended): the trigger predicate is a total function of the message
text and returns true exactly when the lower-cased text contains a word of
the fixed greeting vocabulary, or the text ends with `?`, or the lower-cased
text begins with the command token `!bot`. -/
theorem trigger_matches_amended_vocabulary :
    ∀ text, is_trigger text = triggerAmended text := by
  intro t
  simp only [is_trigger, triggerAmended, greetingVocabulary, List.any_cons,
    List.any_nil, Bool.or_false, Bool.or_assoc]

/-- C5: a `ChatMessage` whose user equals the bot's own login up to ASCII
case is ignored by the Reaction Engine: no prompt is dispatched (hence no AI
call and no chat send) and the rate-limit timestamp is untouched. -/
theorem own_messages_never_dispatch :
    ∀ botLogin user text lastReply now,
      eqIgnoreAsciiCase user botLogin = true →
      reactionStep botLogin user text lastReply now = ⟨none, lastReply⟩ := by
  intro bl u t lr n h
  simp [reactionStep, h]

/-- Witness for C5 at a concrete self-message. -/
theorem own_messages_never_dispatch_witness :
    eqIgnoreAsciiCase "ChouiBot" "chouibot" = true ∧
    reactionStep "chouibot" "ChouiBot" "hello?" 0 5000 = ⟨none, 0⟩ :=
  ⟨by decide,
   own_messages_never_dispatch "chouibot" "ChouiBot" "hello?" 0 5000 (by decide)⟩

/-- C8 counterexample: the claim says a read error emits exactly one `Error`
event and terminates the client's task, but the `Err(_)` arm of the EventSub
read loop falls into the catch-all `_ => {}` (`src/ws.rs` line 128): on a
stream yielding one read error, no event at all is emitted and the loop does
not break. -/
theorem read_error_counterexample :
    (esLoop "" [] [.err]).2.1.length = 0 ∧
    (esLoop "" [] [.err]).2.2 = false ∧
    ¬ ((esLoop "" [] [.err]).2.1.length = 1 ∧ (esLoop "" [] [.err]).2.2 = true) := by
  decide

/-- C8 (amended): a close frame makes the EventSub read loop emit exactly one
`Error` event and terminate, leaving the rest of the stream unprocessed; a
read error emits no event and does not terminate the loop. -/
theorem connection_loss_amended :
    (∀ sess events rest, esLoop sess events (.ok .close :: rest) =
        (sess, events ++ [.Error "WebSocket closed"], true))
    ∧ (∀ sess events rest, esLoop sess events (.err :: rest) = esLoop sess events rest) := by
  exact ⟨fun _ _ _ => rfl, fun _ _ _ => rfl⟩

/-- C3: a `session_welcome` envelope whose `payload.session.id` is
`"abc123"` makes the EventSub client store the session id exactly
`"abc123"`; and whenever the stored session id is still empty after the
startup window, the startup pipeline fails with the
`connect_eventsub_ws` error before the subscription network call is issued
(the emptiness guard at `src/ws.rs` line 138 runs before
`subscribe_to_chat_messages` is ever reached). -/
theorem session_welcome_roundtrip_and_empty_guard :
    (esLoop "" [] [.ok (.text (some ("session_welcome",
        Json.obj [("session", Json.obj [("id", Json.str "abc123")])])))]).1 = "abc123" ∧
    ∀ items : List EsItem, (esLoop "" [] items).1 = "" →
      startupSubscribe items = (.error "Did not receive session_welcome message", []) := by
  refine ⟨rfl, ?_⟩
  intro items h
  simp [startupSubscribe, connectResult, h]

/-- Witness for C3 at a stream with no welcome at all. -/
theorem session_welcome_roundtrip_and_empty_guard_witness :
    startupSubscribe [] = (.error "Did not receive session_welcome message", []) :=
  session_welcome_roundtrip_and_empty_guard.2 [] rfl

/-- C2: the startup authentication of `run_bot` loads the cached credential,
validates it, refreshes exactly once when validation fails and a refresh
token is cached, and runs the device flow only when that refresh fails; a
valid cached token stops after validation, a cached credential without a
refresh token skips straight from failed validation to the device flow, and
a missing cache goes directly to the device flow. -/
theorem auth_startup_order :
    (∀ (c : Credential) (vr : Option Bool) (df : Except String String) (rt : String),
        c.refresh_token = some rt → vr.getD false = false →
        (∀ newCred, (authStartup (some c) vr (some newCred) df).2 =
            [.loadCache, .validate, .refresh]) ∧
        (authStartup (some c) vr none df).2 =
            [.loadCache, .validate, .refresh, .deviceFlow])
    ∧ (∀ (c : Credential) vr rr df, vr.getD false = true →
        (authStartup (some c) vr rr df).2 = [.loadCache, .validate])
    ∧ (∀ (c : Credential) vr rr df, c.refresh_token = none → vr.getD false = false →
        (authStartup (some c) vr rr df).2 = [.loadCache, .validate, .deviceFlow])
    ∧ (∀ vr rr df, (authStartup none vr rr df).2 = [.deviceFlow]) := by
  refine ⟨?_, ?_, ?_, ?_⟩
  · intro c vr df rt hrt hv
    constructor
    · intro newCred
      simp [authStartup, hv, hrt]
    · simp [authStartup, hv, hrt]
  · intro c vr rr df hv
    simp [authStartup, hv]
  · intro c vr rr df hrt hv
    simp [authStartup, hv, hrt]
  · intro vr rr df
    simp [authStartup]

/-- Witness for C2: a cached credential with a refresh token that fails
validation refreshes once, and falls to the device flow exactly when the
refresh fails. -/
theorem auth_startup_order_witness :
    (authStartup (some ⟨"tok", some "rt"⟩) (some false) (some ⟨"ntok", none⟩) (.ok "d")).2 =
      [.loadCache, .validate, .refresh] ∧
    (authStartup (some ⟨"tok", some "rt"⟩) (some false) none (.ok "d")).2 =
      [.loadCache, .validate, .refresh, .deviceFlow] :=
  ⟨(auth_startup_order.1 ⟨"tok", some "rt"⟩ (some false) (.ok "d") "rt" rfl rfl).1
      ⟨"ntok", none⟩,
   (auth_startup_order.1 ⟨"tok", some "rt"⟩ (some false) (.ok "d") "rt" rfl rfl).2⟩

/-- C6 counterexample: the claim says the token endpoint is polled at the
server-specified interval, but the loop sleeps
`Duration::from_secs(auth_req.interval + 1)` (`src/twitch.rs` line 138): for
a server interval of 5 seconds the poll period is 6 seconds. -/
theorem device_flow_interval_counterexample :
    pollPeriod 5 = 6 ∧ pollPeriod 5 ≠ 5 := by
  decide

/-- C6 (amended): the device flow polls at a fixed period of the
server-specified interval plus one second; every poll response whose error
body contains `authorization_pending` or `slow_down` continues polling with
no additional back-off beyond that fixed period; any other error response
aborts the flow; and a successful poll returns the token with the credential
persisted via `save_token_cache` before the function returns. -/
theorem device_flow_polling_amended :
    (∀ interval, pollPeriod interval = interval + 1)
    ∧ (∀ body rest,
        (strContains body "authorization_pending" = true ∨
         strContains body "slow_down" = true) →
        pollLoop (.errBody body :: rest) = pollLoop rest)
    ∧ (∀ body rest, strContains body "authorization_pending" = false →
        strContains body "slow_down" = false →
        pollLoop (.errBody body :: rest) =
          some (.error ("Token polling failed: " ++ body)))
    ∧ (∀ responses cache token, pollLoop responses = some (.ok token) →
        deviceFlowRun responses cache =
          (some (.ok token), some (save_token_cache token))) := by
  refine ⟨fun _ => rfl, ?_, ?_, ?_⟩
  · intro body rest h
    rcases h with h | h
    · simp [pollLoop, h]
    · cases hp : strContains body "authorization_pending" <;> simp [pollLoop, hp, h]
  · intro body rest h1 h2
    simp [pollLoop, h1, h2]
  · intro responses cache token h
    simp [deviceFlowRun, h]

/-- Witness for C6 at a concrete polling run: one `slow_down` body, then
success, with the token persisted. -/
theorem device_flow_polling_amended_witness :
    pollLoop [.errBody "slow_down", .success "t9"] = some (.ok "t9") ∧
    deviceFlowRun [.errBody "slow_down", .success "t9"] none =
      (some (.ok "t9"), some (save_token_cache "t9")) :=
  ⟨rfl,
   device_flow_polling_amended.2.2.2 [.errBody "slow_down", .success "t9"] none "t9" rfl⟩

/-- C7 counterexample: the claim counts quota errors among the AI failures
after which no chat message is sent, but `ask_gemini` converts an HTTP 429
response into an `Ok` canned reply (`src/ai.rs` lines 151-156), so the
spawned task does send a chat message for it. -/
theorem quota_reply_counterexample :
    replyTask "bob" (ask_gemini (some "key") 429 "quota exceeded" none) =
      some "@bob *Squeak!* My brain is tired (Quota Exceeded)! Please wait a moment... *hides*" ∧
    replyTask "bob" (ask_gemini (some "key") 429 "quota exceeded" none) ≠ none := by
  refine ⟨rfl, ?_⟩
  intro h
  rw [show replyTask "bob" (ask_gemini (some "key") 429 "quota exceeded" none) =
      some "@bob *Squeak!* My brain is tired (Quota Exceeded)! Please wait a moment... *hides*"
    from rfl] at h
  exact Option.noConfusion h

/-- C7 (amended): when the AI responder call returns an error — a missing
API key, or a non-2xx HTTP status other than 429 — the spawned reply task
sends no chat message, and the main loop's own trace is independent of the
AI results, so a failed dispatch never blocks or alters the processing of
subsequent events.  A 429 quota response is not an error: it yields a canned
reply that is sent to chat. -/
theorem ai_failure_no_reply_amended :
    (∀ user msg, replyTask user (.error msg) = none)
    ∧ (∀ key status body candidateText, ¬(200 ≤ status ∧ status ≤ 299) → status ≠ 429 →
        ask_gemini (some key) status body candidateText =
          .error ("Gemini API error (" ++ toString status ++ "): " ++ body))
    ∧ (∀ botLogin lastReply evs oracle oracle2,
        (systemRun botLogin lastReply oracle evs).1 =
        (systemRun botLogin lastReply oracle2 evs).1) := by
  refine ⟨fun _ _ => rfl, ?_, fun _ _ _ _ _ => rfl⟩
  intro key status body ct h1 h2
  simp [ask_gemini, h1, h2]

/-- Witness for C7 at a concrete server failure (HTTP 500). -/
theorem ai_failure_no_reply_amended_witness :
    replyTask "bob" (.error "x") = none ∧
    ask_gemini (some "k") 500 "boom" none =
      .error ("Gemini API error (" ++ toString 500 ++ "): " ++ "boom") :=
  ⟨ai_failure_no_reply_amended.1 "bob" "x",
   ai_failure_no_reply_amended.2.1 "k" 500 "boom" none (by decide) (by decide)⟩

/-- A trimmed line that starts with `PING` is not empty. -/
theorem trimmedPingLineNonempty (s : String) (h : rustStartsWith s "PING" = true) :
    ¬ s = "" := by
  intro he
  rw [he] at h
  exact absurd h (by decide)

/-- C9 counterexample: `line.replace("PING", "PONG")` (`src/ws.rs` line 189)
replaces every occurrence of `PING`, so for the line `"PING PING"` the
remainder is not preserved verbatim (the code sends `"PONG PONG"`, the claim
demands `"PONG PING"`); and a failed send `break`s only the per-frame line
loop, not the read loop: with every send failing, a `JOIN` line in the next
frame is still processed and emits its event. -/
theorem ping_reply_counterexample :
    (ircLoop (fun _ => true) ⟨0, [], []⟩ [.text "PING PING"]).sent = ["PONG PONG"] ∧
    (["PONG PONG"] : List String) ≠ ["PONG PING"] ∧
    (ircLoop (fun _ => false) ⟨0, [], []⟩
        [.text "PING a", .text ":alice!a@a JOIN #chan"]).events =
      [AppEvent.UserJoined "alice"] := by
  refine ⟨rfl, by decide, rfl⟩

/-- C9 (amended): a trimmed inbound IRC line beginning with `PING` is echoed
back with every occurrence of `PING` substituted by `PONG` (which preserves
the remainder verbatim whenever the remainder does not itself contain
`PING`); if sending the reply fails, the remaining lines of the current
frame are abandoned. -/
theorem ping_pong_amended :
    (∀ (sendOk : Nat → Bool) (st : IrcState) (line : String),
        rustStartsWith (rustTrim line) "PING" = true →
        sendOk st.sendCount = true →
        ircProcessLine sendOk st line =
          ({ st with sendCount := st.sendCount + 1,
                     sent := st.sent ++ [rustReplace (rustTrim line) "PING" "PONG"] }, true))
    ∧ (∀ (sendOk : Nat → Bool) (st : IrcState) (line : String),
        rustStartsWith (rustTrim line) "PING" = true →
        sendOk st.sendCount = false →
        ircProcessLine sendOk st line = ({ st with sendCount := st.sendCount + 1 }, false))
    ∧ (∀ (sendOk : Nat → Bool) (st : IrcState) (l : String) (ls : List String),
        (ircProcessLine sendOk st l).2 = false →
        ircProcessFrame sendOk st (l :: ls) = (ircProcessLine sendOk st l).1) := by
  refine ⟨?_, ?_, ?_⟩
  · intro ok st line hping hok
    simp [ircProcessLine, trimmedPingLineNonempty _ hping, hping, hok]
  · intro ok st line hping hok
    simp [ircProcessLine, trimmedPingLineNonempty _ hping, hping, hok]
  · intro ok st l ls h
    simp [ircProcessFrame, h]

/-- Witness for C9 at the real keepalive line of the protocol. -/
theorem ping_pong_amended_witness :
    ircProcessLine (fun _ => true) ⟨0, [], []⟩ "PING :tmi.twitch.tv" =
      (⟨1, ["PONG :tmi.twitch.tv"], []⟩, true) := by
  have h := ping_pong_amended.1 (fun _ => true) ⟨0, [], []⟩ "PING :tmi.twitch.tv"
    (by decide) rfl
  rw [h]
  decide

/-- Handling one event never decreases `last_ai_reply`: it is either kept or
set to the current instant after a rate-limit pass. -/
theorem reactionStep_newLast_cases (bl u t : String) (lr now : Nat) :
    (reactionStep bl u t lr now).newLast = lr ∨
    (1000 ≤ now - lr ∧ (reactionStep bl u t lr now).newLast = now) := by
  unfold reactionStep
  repeat' split
  all_goals simp_all
  all_goals (split <;> simp_all)

/-- A dispatched prompt implies the rate-limit test passed and the timestamp
was advanced to the current instant. -/
theorem reactionStep_dispatch_rate (bl u t : String) (lr now : Nat) (d : String)
    (h : (reactionStep bl u t lr now).dispatch = some d) :
    1000 ≤ now - lr ∧ (reactionStep bl u t lr now).newLast = now := by
  unfold reactionStep at h ⊢
  repeat' (first | split at h | split)
  all_goals simp_all
  all_goals (split at h <;> simp_all)

/-- Any dispatch in a trace happens at least one second after the
`last_ai_reply` value the trace started from. -/
theorem runReaction_dispatch_lb (bl : String) :
    ∀ (evs : List ChatEv) (lr : Nat) (j : Nat) (e : ChatEv) (d : String),
      (runReaction bl lr evs)[j]? = some (e, some d) → lr + 1000 ≤ e.time := by
  intro evs
  induction evs with
  | nil => intro lr j e d h; simp [runReaction] at h
  | cons e0 rest ih =>
    intro lr j e d h
    cases j with
    | zero =>
      simp [runReaction] at h
      obtain ⟨he, hd⟩ := h
      have hr := reactionStep_dispatch_rate bl e0.user e0.text lr e0.time d hd
      have : 1000 ≤ e0.time - lr := hr.1
      subst he
      omega
    | succ j2 =>
      simp only [runReaction, List.getElem?_cons_succ] at h
      have hmono : lr ≤ (reactionStep bl e0.user e0.text lr e0.time).newLast := by
        rcases reactionStep_newLast_cases bl e0.user e0.text lr e0.time with h1 | ⟨h1, h2⟩
        · omega
        · omega
      have := ih (reactionStep bl e0.user e0.text lr e0.time).newLast j2 e d h
      omega

/-- Two dispatches in one trace are at least one second apart. -/
theorem runReaction_two_dispatch (bl : String) :
    ∀ (evs : List ChatEv) (lr : Nat) (i j : Nat) (ei ej : ChatEv) (di dj : String),
      i < j →
      (runReaction bl lr evs)[i]? = some (ei, some di) →
      (runReaction bl lr evs)[j]? = some (ej, some dj) →
      ei.time + 1000 ≤ ej.time := by
  intro evs
  induction evs with
  | nil => intro lr i j ei ej di dj hij hi hj; simp [runReaction] at hi
  | cons e0 rest ih =>
    intro lr i j ei ej di dj hij hi hj
    cases i with
    | zero =>
      cases j with
      | zero => omega
      | succ j2 =>
        simp only [runReaction, List.getElem?_cons_zero, List.getElem?_cons_succ,
          Option.some.injEq, Prod.mk.injEq] at hi hj
        obtain ⟨hei, hdi⟩ := hi
        have hr := reactionStep_dispatch_rate bl e0.user e0.text lr e0.time di hdi
        have hb := runReaction_dispatch_lb bl rest
          (reactionStep bl e0.user e0.text lr e0.time).newLast j2 ej dj hj
        rw [hr.2] at hb
        subst hei
        omega
    | succ i2 =>
      cases j with
      | zero => omega
      | succ j2 =>
        simp only [runReaction, List.getElem?_cons_succ] at hi hj
        exact ih _ i2 j2 ei ej di dj (by omega) hi hj

/-- C1: any two prompts dispatched by the Reaction Engine in one trace are
at least 1000 ms apart — so of two trigger-eligible messages handled less
than one second apart, at most one dispatch is accepted; a trigger that
fails the rate-limit check is dropped silently, leaving the state exactly as
it was (no queueing); and every accepted dispatch advances the rate-limit
timestamp to the current instant, so the next acceptance again requires a
full second since the previous accepted reply. -/
theorem rate_limit_one_per_second :
    (∀ (botLogin : String) (lastReply : Nat) (evs : List ChatEv) (i j : Nat)
        (ei ej : ChatEv) (di dj : String),
        i < j →
        (runReaction botLogin lastReply evs)[i]? = some (ei, some di) →
        (runReaction botLogin lastReply evs)[j]? = some (ej, some dj) →
        ei.time + 1000 ≤ ej.time)
    ∧ (∀ botLogin user text lastReply now,
        eqIgnoreAsciiCase user botLogin = false → is_trigger text = true →
        now - lastReply < 1000 →
        reactionStep botLogin user text lastReply now = ⟨none, lastReply⟩)
    ∧ (∀ botLogin user text lastReply now d,
        (reactionStep botLogin user text lastReply now).dispatch = some d →
        (reactionStep botLogin user text lastReply now).newLast = now) := by
  refine ⟨?_, ?_, ?_⟩
  · intro bl lr evs i j ei ej di dj hij hi hj
    exact runReaction_two_dispatch bl evs lr i j ei ej di dj hij hi hj
  · intro bl u t lr now h1 h2 h3
    have hn : ¬ 1000 ≤ now - lr := by omega
    simp [reactionStep, h1, h2, hn]
  · intro bl u t lr now d h
    exact (reactionStep_dispatch_rate bl u t lr now d h).2

/-- Witness for C1 on a concrete trace: triggers at 1000 ms, 1500 ms and
2200 ms; the first and third are accepted one-plus seconds apart, the middle
one (500 ms after an accepted reply) is dropped with the state unchanged. -/
theorem rate_limit_one_per_second_witness :
    (runReaction "bot" 0 [⟨"a", "hey", 1000⟩, ⟨"b", "hey", 1500⟩, ⟨"c", "hey", 2200⟩])[0]? =
      some (⟨"a", "hey", 1000⟩, some "User a: hey") ∧
    (runReaction "bot" 0 [⟨"a", "hey", 1000⟩, ⟨"b", "hey", 1500⟩, ⟨"c", "hey", 2200⟩])[2]? =
      some (⟨"c", "hey", 2200⟩, some "User c: hey") ∧
    (1000 : Nat) + 1000 ≤ 2200 ∧
    reactionStep "bot" "b" "hey" 1000 1500 = ⟨none, 1000⟩ := by
  have h1 : (runReaction "bot" 0
      [⟨"a", "hey", 1000⟩, ⟨"b", "hey", 1500⟩, ⟨"c", "hey", 2200⟩])[0]? =
      some (⟨"a", "hey", 1000⟩, some "User a: hey") := by decide
  have h2 : (runReaction "bot" 0
      [⟨"a", "hey", 1000⟩, ⟨"b", "hey", 1500⟩, ⟨"c", "hey", 2200⟩])[2]? =
      some (⟨"c", "hey", 2200⟩, some "User c: hey") := by decide
  refine ⟨h1, h2, ?_, ?_⟩
  · exact rate_limit_one_per_second.1 "bot" 0
      [⟨"a", "hey", 1000⟩, ⟨"b", "hey", 1500⟩, ⟨"c", "hey", 2200⟩] 0 2
      ⟨"a", "hey", 1000⟩ ⟨"c", "hey", 2200⟩ "User a: hey" "User c: hey"
      (by omega) h1 h2
  · exact rate_limit_one_per_second.2.1 "bot" "b" "hey" 1000 1500
      (by decide) (by decide) (by omega)
